import Mathlib

/-!
Verification development for the DivyaDrishti real-time detection streaming
client (myApp1/components/ui/dashboard.tsx).

The embedding below translates the core control logic of the dashboard
component into Lean: the pure helpers (updateDetections, the alert-text
derivation of handleAlerts) become Lean functions on the same data, and the
stateful callbacks (speakAlert, handleAlerts, stopDetection, startDetection,
captureAndSendFrame, the startRealtimeLoop iteration) become explicit
state-passing functions from a LoopState (the component's refs and React
state cells) and an Env (the outcomes supplied by the camera, the network
and the clock during one iteration) to an updated LoopState plus a list of
observable side effects, in the order the source issues them.

JavaScript numbers appearing in the data model (bbox coordinates,
confidence) are modelled as Rat: the source only ever compares them for
strict equality, never performs arithmetic on them. Timestamps (Date.now)
are modelled as Int milliseconds. A JS string that the source tests for
truthiness (data.alert) is modelled as a String tested against "".
-/

/-- Bounding box coordinates in server pixel space (interface BoundingBoxCoords). -/
structure BoundingBoxCoords where
  x1 : Rat
  y1 : Rat
  x2 : Rat
  y2 : Rat
deriving DecidableEq, Repr

/-- One detected object (interface Detection). The field class of the source
is named className here because class is a Lean keyword. -/
structure Detection where
  className : String
  confidence : Rat
  position : String
  distance : String
  isPriority : Bool
  bbox : BoundingBoxCoords
deriving DecidableEq, Repr

/-- Parsed JSON body of a successful server response (interface ServerResponse).
Absent optional fields are modelled as the empty string / empty list, which is
how the source treats them (truthiness checks and defaulting). -/
structure ServerResponse where
  alert : String
  alerts : List String
  objects : List String
  detections : List Detection
  frameWidth : Nat
  frameHeight : Nat
deriving DecidableEq, Repr

/-- Connection status values of the connectionStatus React state. -/
inductive ConnStatus where
  | connecting
  | connected
  | error
deriving DecidableEq, Repr

/-- The CONFIG constant of the source. -/
structure Config where
  SERVER_URL : String
  FRAME_RATE : Nat
  REQUEST_TIMEOUT : Nat
  RECONNECT_DELAY : Nat
  IMAGE_QUALITY : Rat
  MAX_RETRY_ATTEMPTS : Nat
  SPEECH_COOLDOWN : Nat
deriving Repr

def CONFIG : Config :=
  { SERVER_URL := "http://192.168.29.172:5000/detect"
    FRAME_RATE := 10
    REQUEST_TIMEOUT := 5000
    RECONNECT_DELAY := 1000
    IMAGE_QUALITY := 3 / 20
    MAX_RETRY_ATTEMPTS := 5
    SPEECH_COOLDOWN := 3000 }

/-- A JavaScript Error object as observed by the catch block: its name and
message are the only parts the source inspects. -/
structure JsError where
  name : String
  message : String
deriving DecidableEq, Repr

/-- Does the character list s lead with the character list pat. -/
def leadsWith : List Char → List Char → Bool
  | _, [] => true
  | [], _ :: _ => false
  | a :: s, b :: p => a == b && leadsWith s p

/-- Does pat occur as a contiguous run inside s. -/
def hasSub : List Char → List Char → Bool
  | [], p => p.isEmpty
  | a :: t, p => leadsWith (a :: t) p || hasSub t p

/-- JavaScript String.prototype.includes: substring containment. -/
def strIncludes (s pat : String) : Bool :=
  hasSub s.data pat.data

/-- The message of the error thrown at line 239 of the source for a non-2xx
HTTP response: new Error with template Server error: status. -/
def serverErrorMessage (status : Nat) : String :=
  "Server error: " ++ Nat.repr status

/-- The classification performed by the catch block (lines 255-257):
an error is a network error when its message contains Network, or its
message contains Failed to fetch, or its name is AbortError. -/
def isNetworkError (e : JsError) : Bool :=
  strIncludes e.message "Network" || strIncludes e.message "Failed to fetch" ||
    e.name == "AbortError"

/-- The failure taxonomy of the specification, used to build representative
JsError values for each failure kind. -/
inductive ErrKind where
  | timeout
  | network
  | http (status : Nat)
  | decode
  | captureFail
deriving DecidableEq, Repr

/-- The JsError each failure kind presents to the catch block. The http case
is fully code-determined: line 239 throws a plain Error whose message is
serverErrorMessage status. The timeout case carries the name AbortError,
which is what aborting the AbortController of lines 224-230 produces and
exactly what line 257 tests for. The network, decode and captureFail
messages model the standard platform error objects (React Native fetch
rejection, JSON body parse failure, expo-camera capture failure). -/
def errOf : ErrKind → JsError
  | ErrKind.timeout => { name := "AbortError", message := "Aborted" }
  | ErrKind.network => { name := "TypeError", message := "Network request failed" }
  | ErrKind.http status => { name := "Error", message := serverErrorMessage status }
  | ErrKind.decode => { name := "SyntaxError", message := "JSON Parse error: Unexpected identifier" }
  | ErrKind.captureFail => { name := "Error", message := "Camera is not ready" }

/-- Observable side effects issued by the component, in issue order:
speech stop/start commands, vibration, the frame capture, the network
request, the terminal Alert.alert dialog, the backoff wait, clearing the
pending loop timer, starting the realtime loop, and scheduling the next
loop iteration after a delay. -/
inductive Effect where
  | speechStop
  | speak (text : String)
  | vibrate
  | capture
  | fetchRequest
  | alertDialog (title : String) (msg : String)
  | waitMs (ms : Nat)
  | clearTimer
  | startLoop
  | scheduleNext (ms : Nat)
deriving DecidableEq, Repr

/-- The mutable state of the Dashboard component relevant to the streaming
core: the refs (runningRef, processingRef, lastSpeechTimeRef, retryCountRef,
mountedRef, frameLoopTimeoutRef as a pending-timer flag, lastAlertTextRef)
and the React state cells (isRunning, alertText, detections,
connectionStatus, serverW, serverH). -/
structure LoopState where
  running : Bool
  isRunning : Bool
  processing : Bool
  mounted : Bool
  lastSpeechTime : Int
  retryCount : Nat
  alertText : String
  lastAlertText : String
  detections : List Detection
  connectionStatus : ConnStatus
  serverW : Nat
  serverH : Nat
  frameLoopTimeout : Bool
deriving DecidableEq, Repr

/-- What the network produced for one iteration: either the fetch resolved
with an HTTP status and a JSON body (none models a body that fails to
parse), or the fetch rejected with a JsError (network failure or abort). -/
inductive NetResult where
  | response (status : Nat) (body : Option ServerResponse)
  | reject (e : JsError)
deriving DecidableEq, Repr

/-- The environment of one loop iteration: everything the outside world
decides during the iteration. mounted1 and mounted2 are the values of
mountedRef observed at the suspension points after the capture await and
after the network/json awaits (teardown may happen during an await).
elapsedMs is the wall time the iteration spent before rescheduling; the
source records startTime (line 205) but never reads it, so no definition
below consumes this field. -/
structure Env where
  cameraReady : Bool
  captureOk : Bool
  captureError : JsError
  mounted1 : Bool
  netResult : NetResult
  decodeError : JsError
  mounted2 : Bool
  now : Int
  elapsedMs : Nat
deriving Repr

/-- response.ok of the fetch API: HTTP status in the 2xx range. -/
def responseOk (status : Nat) : Bool :=
  200 ≤ status && status ≤ 299

/-- Per-element comparison of updateDetections (lines 115-121): class and
the four bbox coordinates, confidence deliberately ignored. -/
def sameDetection (a b : Detection) : Bool :=
  a.className == b.className && a.bbox.x1 == b.bbox.x1 && a.bbox.y1 == b.bbox.y1 &&
    a.bbox.x2 == b.bbox.x2 && a.bbox.y2 == b.bbox.y2

/-- The loop of lines 110-127: equal length and no positional mismatch. -/
def sameDetections (prev next : List Detection) : Bool :=
  (prev.length == next.length) && (prev.zip next).all fun p => sameDetection p.1 p.2

/-- updateDetections (lines 108-130): the functional update applied to the
detections state cell; returns the previous list unchanged when nothing but
confidence moved, otherwise the next list. -/
def updateDetections (prev next : List Detection) : List Detection :=
  if sameDetections prev next then prev else next

/-- Array.from(new Set(xs)) of line 152: distinct elements in order of
first appearance. -/
def distinctFirst (l : List String) : List String :=
  l.foldl (fun acc x => if acc.contains x then acc else acc ++ [x]) []

/-- The alert-text derivation of handleAlerts (lines 148-154): explicit
alert verbatim when present (truthy, i.e. non-empty), else up to two
distinct object names joined with a comma, a three-dot truncation marker
when more than two are distinct, and the word detected after a space,
else Path Clear. -/
def deriveAlert (data : ServerResponse) : String :=
  if data.alert ≠ "" then data.alert
  else if 0 < data.objects.length then
    let uniqueObjects := distinctFirst data.objects
    String.intercalate ", " (uniqueObjects.take 2) ++
      (if 2 < uniqueObjects.length then "..." else "") ++ " detected"
  else "Path Clear"

/-- speakAlert (lines 132-144): suppressed inside the cooldown window,
otherwise records the speech time, stops the current utterance and speaks. -/
def speakAlert (s : LoopState) (text : String) (now : Int) : LoopState × List Effect :=
  if now - s.lastSpeechTime < (CONFIG.SPEECH_COOLDOWN : Int) then (s, [])
  else ({ s with lastSpeechTime := now }, [Effect.speechStop, Effect.speak text])

/-- The text-update suppression of lines 156-159: publish the derived text
only when it differs from lastAlertTextRef. -/
def handleAlertText (s : LoopState) (nextAlert : String) : LoopState :=
  if nextAlert ≠ s.lastAlertText then
    { s with alertText := nextAlert, lastAlertText := nextAlert }
  else s

/-- The vibration rule of lines 161-163: vibrate whenever the derived text
contains the substring Warning. -/
def vibEffects (nextAlert : String) : List Effect :=
  if strIncludes nextAlert "Warning" then [Effect.vibrate] else []

/-- handleAlerts (lines 146-170): derive the text, publish it only when it
changed, vibrate whenever the derived text contains Warning, and attempt
speech (lines 165-167) only for an explicit alert. -/
def handleAlerts (s : LoopState) (data : ServerResponse) (now : Int) :
    LoopState × List Effect :=
  if data.alert ≠ "" then
    ((speakAlert (handleAlertText s (deriveAlert data)) data.alert now).1,
      vibEffects (deriveAlert data) ++
        (speakAlert (handleAlertText s (deriveAlert data)) data.alert now).2)
  else (handleAlertText s (deriveAlert data), vibEffects (deriveAlert data))

/-- stopDetection (lines 185-197): clear the running flags, stop speech,
cancel a pending loop timer, and publish the Paused text. -/
def stopDetection (s : LoopState) : LoopState × List Effect :=
  let clearEff : List Effect := if s.frameLoopTimeout then [Effect.clearTimer] else []
  ({ s with
      running := false
      isRunning := false
      frameLoopTimeout := false
      alertText := "Paused"
      lastAlertText := "Paused" },
    Effect.speechStop :: clearEff)

/-- The catch block classification and reaction (lines 261-281), entered
after the mounted check of line 253: a network-classified error is counted
and either terminates the loop (with the Connection Lost text, a
stopDetection call and one Alert.alert dialog) or backs off for
RECONNECT_DELAY behind a Reconnecting indicator; any other error is
skipped with no state change beyond a console warning. -/
def handleError (s : LoopState) (e : JsError) : LoopState × List Effect :=
  if isNetworkError e then
    let s := { s with connectionStatus := ConnStatus.error, retryCount := s.retryCount + 1 }
    if CONFIG.MAX_RETRY_ATTEMPTS ≤ s.retryCount then
      let s := { s with alertText := "Connection Lost", lastAlertText := "Connection Lost" }
      let r := stopDetection s
      (r.1, r.2 ++ [Effect.alertDialog "Connection Error" "Unable to reach the AI Server."])
    else
      let s := if s.lastAlertText ≠ "Reconnecting..." then
          { s with alertText := "Reconnecting...", lastAlertText := "Reconnecting..." }
        else s
      (s, [Effect.waitMs CONFIG.RECONNECT_DELAY])
  else (s, [])

/-- The continuation of captureAndSendFrame from the moment the network
call resolves or rejects (lines 236-281): the state passed in is whatever
the component state is at that moment (stopDetection may have run during
the await). The mounted checks of lines 243 and 253 observe mounted2. -/
def onFetchComplete (sIn : LoopState) (env : Env) : LoopState × List Effect :=
  let s := { sIn with mounted := env.mounted2 }
  match env.netResult with
  | NetResult.reject e =>
      if s.mounted = false then (s, []) else handleError s e
  | NetResult.response status body =>
      if responseOk status = false then
        if s.mounted = false then (s, [])
        else handleError s { name := "Error", message := serverErrorMessage status }
      else
        match body with
        | none =>
            if s.mounted = false then (s, []) else handleError s env.decodeError
        | some data =>
            if s.mounted = false then (s, [])
            else
              let s := { s with
                detections := updateDetections s.detections data.detections
                serverW := if data.frameWidth = 0 then 1 else data.frameWidth
                serverH := if data.frameHeight = 0 then 1 else data.frameHeight
                connectionStatus := ConnStatus.connected
                retryCount := 0 }
              handleAlerts s data env.now

/-- onFetchComplete together with the finally block of lines 282-284,
which always releases the processing flag. -/
def resumeAfterFetch (s : LoopState) (env : Env) : LoopState × List Effect :=
  let r := onFetchComplete s env
  ({ r.1 with processing := false }, r.2)

/-- captureAndSendFrame (lines 199-285) as one whole iteration in which no
external mutation interleaves: the guard of line 200 (camera ready,
processing flag, mounted), the capture with its own failure path, the
mounted check of line 215, the network call, and the shared catch/finally. -/
def captureAndSendFrame (s0 : LoopState) (env : Env) : LoopState × List Effect :=
  if env.cameraReady = false || s0.processing || s0.mounted = false then (s0, [])
  else
    let s := { s0 with processing := true }
    if env.captureOk = false then
      let s := { s with mounted := env.mounted1 }
      if s.mounted = false then ({ s with processing := false }, [Effect.capture])
      else
        let r := handleError s env.captureError
        ({ r.1 with processing := false }, Effect.capture :: r.2)
    else
      let s := { s with mounted := env.mounted1 }
      if s.mounted = false then ({ s with processing := false }, [Effect.capture])
      else
        let r := resumeAfterFetch s env
        (r.1, Effect.capture :: Effect.fetchRequest :: r.2)

/-- frameDelay of line 288: 1000 / CONFIG.FRAME_RATE milliseconds. -/
def frameDelay : Nat :=
  1000 / CONFIG.FRAME_RATE

/-- One pass of the loop closure of startRealtimeLoop (lines 287-300):
bail out unless running and mounted, run captureAndSendFrame, and if still
running and mounted schedule the next pass after the fixed frameDelay. -/
def startRealtimeLoopStep (s : LoopState) (env : Env) : LoopState × List Effect :=
  if s.running = false || s.mounted = false then (s, [])
  else
    let r := captureAndSendFrame s env
    if r.1.running && r.1.mounted then
      ({ r.1 with frameLoopTimeout := true }, r.2 ++ [Effect.scheduleNext frameDelay])
    else r

/-- startDetection (lines 302-311): a no-op when already running, otherwise
reset failure state, publish the starting texts and begin the loop. -/
def startDetection (s : LoopState) : LoopState × List Effect :=
  if s.running then (s, [])
  else
    ({ s with
        running := true
        retryCount := 0
        isRunning := true
        connectionStatus := ConnStatus.connecting
        alertText := "Starting AI..."
        lastAlertText := "Starting AI..." },
      [Effect.startLoop])

/-- Definition following the words of the specification (section 4.5), for
comparison with the source pacing: schedule the next iteration after
max(0, frameInterval - elapsed) where frameInterval = 1000 / targetFps. -/
def specAdaptiveDelay (elapsed : Int) : Int :=
  max 0 ((1000 / (CONFIG.FRAME_RATE : Int)) - elapsed)

/-- The positional equality the specification demands of the reconciler:
class and the four bbox coordinates agree, confidence unconstrained. -/
def keysEq (a b : Detection) : Prop :=
  a.className = b.className ∧ a.bbox.x1 = b.bbox.x1 ∧ a.bbox.y1 = b.bbox.y1 ∧
    a.bbox.x2 = b.bbox.x2 ∧ a.bbox.y2 = b.bbox.y2

/-- Recognizer for spoken-utterance effects. -/
def isSpeak : Effect → Bool
  | Effect.speak _ => true
  | _ => false

/-- Number of spoken utterances in an effect list. -/
def countSpeaks (l : List Effect) : Nat :=
  l.countP isSpeak

/-- Recognizer for network-request effects. -/
def isFetchRequest : Effect → Bool
  | Effect.fetchRequest => true
  | _ => false

/-- Recognizer for the terminal notification dialog. -/
def isAlertDialog : Effect → Bool
  | Effect.alertDialog _ _ => true
  | _ => false

/-- Recognizer for next-iteration scheduling effects. -/
def isScheduleNext : Effect → Bool
  | Effect.scheduleNext _ => true
  | _ => false

/-- A sample bounding box. -/
def bbox0 : BoundingBoxCoords :=
  { x1 := 10, y1 := 20, x2 := 110, y2 := 220 }

/-- A sample detection. -/
def det0 : Detection :=
  { className := "person", confidence := 1, position := "center"
    distance := "2m", isPriority := true, bbox := bbox0 }

/-- det0 with only its confidence changed. -/
def det0jitter : Detection :=
  { det0 with confidence := 0 }

/-- A response with no alert, no objects and no detections. -/
def emptyResp : ServerResponse :=
  { alert := "", alerts := [], objects := [], detections := [], frameWidth := 640, frameHeight := 480 }

/-- A response carrying only an objects list. -/
def respObjects (objs : List String) : ServerResponse :=
  { emptyResp with objects := objs }

/-- A response carrying an explicit alert string. -/
def respAlert (a : String) : ServerResponse :=
  { emptyResp with alert := a }

/-- The warning response used by several scenarios. -/
def warnResp : ServerResponse :=
  respAlert "Warning: obstacle ahead"

/-- The component state right after mount and startDetection, with the
initial ref values of lines 92-98 (lastSpeechTimeRef 0, retryCountRef 0,
lastAlertTextRef as set by startDetection). -/
def baseState : LoopState :=
  { running := true, isRunning := true, processing := false, mounted := true
    lastSpeechTime := 0, retryCount := 0
    alertText := "Starting AI...", lastAlertText := "Starting AI..."
    detections := [], connectionStatus := ConnStatus.connecting
    serverW := 1, serverH := 1, frameLoopTimeout := false }

/-- An uneventful environment: camera ready, capture fine, stays mounted,
HTTP 200 with an empty parsed body. -/
def env0 : Env :=
  { cameraReady := true, captureOk := true, captureError := errOf ErrKind.captureFail
    mounted1 := true, netResult := NetResult.response 200 (some emptyResp)
    decodeError := errOf ErrKind.decode, mounted2 := true
    now := 1700000000000, elapsedMs := 0 }

/-- baseState while a request is still in flight. -/
def busyState : LoopState :=
  { baseState with processing := true }

/-- The component state right after a stopDetection call. -/
def stoppedState : LoopState :=
  { baseState with
    running := false
    isRunning := false
    alertText := "Paused"
    lastAlertText := "Paused" }

/-- The component state observed by an in-flight continuation when
stopDetection ran during the network await: stopped, still mounted, the
request still marked as processing. -/
def stoppedInFlight : LoopState :=
  { stoppedState with processing := true }

/-- baseState after four consecutive counted failures, a reconnect timer
text published and the loop timer pending. -/
def preTerminalState : LoopState :=
  { baseState with
    retryCount := 4
    alertText := "Reconnecting..."
    lastAlertText := "Reconnecting..."
    frameLoopTimeout := true }

/-- The outcome of the fifth consecutive network failure. -/
def c6res : LoopState × List Effect :=
  handleError preTerminalState (errOf ErrKind.network)

/-- A late success response carrying a warning and one detection. -/
def lateResp : ServerResponse :=
  { alert := "Warning: obstacle ahead", alerts := [], objects := ["person"]
    detections := [det0], frameWidth := 640, frameHeight := 480 }

/-- env0 with the late warning response. -/
def lateEnv : Env :=
  { env0 with netResult := NetResult.response 200 (some lateResp) }

/-- The in-flight continuation resolving after a stop. -/
def c7res : LoopState × List Effect :=
  resumeAfterFetch stoppedInFlight lateEnv

/-- env0 for an iteration that took 500 ms of wall time. -/
def c8env : Env :=
  { env0 with elapsedMs := 500 }

/-- One loop pass under c8env. -/
def c8res : LoopState × List Effect :=
  startRealtimeLoopStep baseState c8env

/-- Second of three explicit-alert responses, 1000 ms after the first. -/
def c5r2 : LoopState × List Effect :=
  handleAlerts (handleAlerts baseState warnResp 1700000000000).1 warnResp 1700000001000

/-- Third of three explicit-alert responses, 1000 ms after the second. -/
def c5r3 : LoopState × List Effect :=
  handleAlerts c5r2.1 warnResp 1700000002000

/-- A state whose published alert text is already the warning text and
whose last utterance is recent. -/
def warnSeenState : LoopState :=
  { baseState with
    alertText := "Warning: obstacle ahead"
    lastAlertText := "Warning: obstacle ahead"
    lastSpeechTime := 1700000000000 }

/-- Characters of a matched leading pattern occur in the scanned list. -/
theorem leadsWith_subset :
    ∀ (s p : List Char), leadsWith s p = true → ∀ c ∈ p, c ∈ s := by
  intro s
  induction s with
  | nil =>
      intro p h c hc
      cases p with
      | nil => cases hc
      | cons b q => simp [leadsWith] at h
  | cons a t ih =>
      intro p h c hc
      cases p with
      | nil => cases hc
      | cons b q =>
          simp only [leadsWith, Bool.and_eq_true, beq_iff_eq] at h
          rcases List.mem_cons.mp hc with rfl | hq
          · exact List.mem_cons.mpr (Or.inl h.1.symm)
          · exact List.mem_cons.mpr (Or.inr (ih q h.2 c hq))

/-- Characters of a matched substring occur in the scanned list. -/
theorem hasSub_subset :
    ∀ (s p : List Char), hasSub s p = true → ∀ c ∈ p, c ∈ s := by
  intro s
  induction s with
  | nil =>
      intro p h c hc
      cases p with
      | nil => cases hc
      | cons b q => simp [hasSub, List.isEmpty] at h
  | cons a t ih =>
      intro p h c hc
      simp only [hasSub, Bool.or_eq_true] at h
      rcases h with h | h
      · exact leadsWith_subset (a :: t) p h c hc
      · exact List.mem_cons.mpr (Or.inr (ih p h c hc))

/-- A pattern containing a character absent from the string never occurs. -/
theorem strIncludes_eq_false (s pat : String) (c : Char) (hc : c ∈ pat.data)
    (hs : c ∉ s.data) : strIncludes s pat = false := by
  rcases h : strIncludes s pat with _ | _
  · rfl
  · exact absurd (hasSub_subset s.data pat.data h c hc) hs

/-- digitChar of a value below ten is a decimal digit. -/
theorem digitChar_isDigit (m : Nat) (h : m < 10) : (Nat.digitChar m).isDigit = true := by
  interval_cases m <;> decide

/-- toDigitsCore at base ten only ever prepends decimal digits. -/
theorem toDigitsCore_isDigit :
    ∀ (f n : Nat) (acc : List Char),
      (∀ c ∈ acc, c.isDigit = true) → ∀ c ∈ Nat.toDigitsCore 10 f n acc, c.isDigit = true := by
  intro f
  induction f with
  | zero =>
      intro n acc hacc c hc
      simp only [Nat.toDigitsCore] at hc
      exact hacc c hc
  | succ f ih =>
      intro n acc hacc c hc
      simp only [Nat.toDigitsCore] at hc
      by_cases h10 : n / 10 = 0
      · rw [if_pos h10] at hc
        rcases List.mem_cons.mp hc with h | h
        · subst h
          exact digitChar_isDigit _ (Nat.mod_lt _ (by decide))
        · exact hacc c h
      · rw [if_neg h10] at hc
        refine ih (n / 10) _ ?_ c hc
        intro d hd
        rcases List.mem_cons.mp hd with h | h
        · subst h
          exact digitChar_isDigit _ (Nat.mod_lt _ (by decide))
        · exact hacc d h

/-- The decimal representation of a natural number consists of digits. -/
theorem repr_isDigit (n : Nat) : ∀ c ∈ (Nat.repr n).data, c.isDigit = true := by
  intro c hc
  have hd : (Nat.repr n).data = Nat.toDigitsCore 10 (n + 1) n [] := rfl
  rw [hd] at hc
  exact toDigitsCore_isDigit (n + 1) n [] (by intro d hd'; cases hd') c hc

/-- Helper for the HTTP classification: a pattern whose witness character is
neither in the fixed part of the thrown message nor a digit cannot occur in
the message of the error thrown for a non-2xx status. -/
theorem serverErrorMessage_no_sub (status : Nat) (pat : String) (c : Char)
    (hc : c ∈ pat.data) (hfixed : c ∉ "Server error: ".data) (hdig : c.isDigit = false) :
    strIncludes (serverErrorMessage status) pat = false := by
  apply strIncludes_eq_false _ _ c hc
  intro hmem
  rw [serverErrorMessage, String.data_append] at hmem
  rcases List.mem_append.mp hmem with h | h
  · exact hfixed h
  · rw [repr_isDigit status c h] at hdig
    cases hdig

/-- The error thrown for any non-2xx HTTP status is never classified as a
network error by the catch block: its message contains neither Network nor
Failed to fetch, and its name is not AbortError. -/
theorem isNetworkError_http (status : Nat) :
    isNetworkError (errOf (ErrKind.http status)) = false := by
  simp only [errOf, isNetworkError, Bool.or_eq_false_iff]
  refine ⟨⟨?_, ?_⟩, by decide⟩
  · exact serverErrorMessage_no_sub status "Network" 'N' (by decide) (by decide) (by decide)
  · exact serverErrorMessage_no_sub status "Failed to fetch" 'F' (by decide) (by decide) (by decide)

/-- handleAlertText only moves the two alert-text fields. -/
theorem handleAlertText_fields (s : LoopState) (x : String) :
    (handleAlertText s x).lastSpeechTime = s.lastSpeechTime ∧
    (handleAlertText s x).detections = s.detections ∧
    (handleAlertText s x).connectionStatus = s.connectionStatus ∧
    (handleAlertText s x).running = s.running ∧
    (handleAlertText s x).retryCount = s.retryCount ∧
    (handleAlertText s x).processing = s.processing ∧
    (handleAlertText s x).mounted = s.mounted := by
  unfold handleAlertText
  split <;> exact ⟨rfl, rfl, rfl, rfl, rfl, rfl, rfl⟩

/-- speakAlert as a single conditional: fire outside the cooldown window,
suppress inside it. -/
theorem speakAlert_spec (s : LoopState) (t : String) (now : Int) :
    speakAlert s t now =
      if (CONFIG.SPEECH_COOLDOWN : Int) ≤ now - s.lastSpeechTime then
        ({ s with lastSpeechTime := now }, [Effect.speechStop, Effect.speak t])
      else (s, []) := by
  unfold speakAlert
  rcases lt_or_le (now - s.lastSpeechTime) ((CONFIG.SPEECH_COOLDOWN : Int)) with h | h
  · rw [if_pos h, if_neg (not_le.mpr h)]
  · rw [if_neg (not_lt.mpr h), if_pos h]

/-- handleAlerts as a single conditional on the speech-firing condition. -/
theorem handleAlerts_eq (s : LoopState) (data : ServerResponse) (now : Int) :
    handleAlerts s data now =
      if data.alert ≠ "" ∧ (CONFIG.SPEECH_COOLDOWN : Int) ≤ now - s.lastSpeechTime then
        ({ handleAlertText s (deriveAlert data) with lastSpeechTime := now },
          vibEffects (deriveAlert data) ++ [Effect.speechStop, Effect.speak data.alert])
      else (handleAlertText s (deriveAlert data), vibEffects (deriveAlert data)) := by
  unfold handleAlerts
  by_cases ha : data.alert ≠ ""
  · rw [if_pos ha, speakAlert_spec, (handleAlertText_fields s (deriveAlert data)).1]
    by_cases hcd : (CONFIG.SPEECH_COOLDOWN : Int) ≤ now - s.lastSpeechTime
    · rw [if_pos hcd, if_pos ⟨ha, hcd⟩]
    · rw [if_neg hcd, if_neg (by tauto)]
      simp
  · rw [if_neg ha, if_neg (by tauto)]

/-- Number of utterances from one handleAlerts call: one exactly when an
explicit alert is present and the cooldown has elapsed. -/
theorem countSpeaks_handleAlerts (s : LoopState) (data : ServerResponse) (now : Int) :
    countSpeaks (handleAlerts s data now).2 =
      if data.alert ≠ "" ∧ (CONFIG.SPEECH_COOLDOWN : Int) ≤ now - s.lastSpeechTime then 1
      else 0 := by
  rw [handleAlerts_eq]
  split
  · unfold countSpeaks vibEffects
    split <;> rfl
  · unfold countSpeaks vibEffects
    split <;> rfl

/-- The speech timestamp after handleAlerts. -/
theorem lastSpeechTime_handleAlerts (s : LoopState) (data : ServerResponse) (now : Int) :
    (handleAlerts s data now).1.lastSpeechTime =
      if data.alert ≠ "" ∧ (CONFIG.SPEECH_COOLDOWN : Int) ≤ now - s.lastSpeechTime then now
      else s.lastSpeechTime := by
  rw [handleAlerts_eq]
  split
  · rfl
  · exact (handleAlertText_fields s (deriveAlert data)).1

/-- handleAlerts never changes detections, connection status, the running
flags or the retry counter. -/
theorem handleAlerts_preserves (s : LoopState) (data : ServerResponse) (now : Int) :
    (handleAlerts s data now).1.detections = s.detections ∧
    (handleAlerts s data now).1.connectionStatus = s.connectionStatus ∧
    (handleAlerts s data now).1.running = s.running ∧
    (handleAlerts s data now).1.retryCount = s.retryCount := by
  rw [handleAlerts_eq]
  have h := handleAlertText_fields s (deriveAlert data)
  split
  · exact ⟨h.2.1, h.2.2.1, h.2.2.2.1, h.2.2.2.2.1⟩
  · exact ⟨h.2.1, h.2.2.1, h.2.2.2.1, h.2.2.2.2.1⟩

/-- Every effect issued by handleAlerts is a vibration, a speech stop or an
utterance of the explicit alert. -/
theorem handleAlerts_mem (s : LoopState) (data : ServerResponse) (now : Int) (x : Effect)
    (hx : x ∈ (handleAlerts s data now).2) :
    x = Effect.vibrate ∨ x = Effect.speechStop ∨ x = Effect.speak data.alert := by
  rw [handleAlerts_eq] at hx
  split at hx
  · rcases List.mem_append.mp hx with h | h
    · unfold vibEffects at h
      split at h
      · simp at h; exact Or.inl h
      · cases h
    · simp at h
      rcases h with h | h
      · exact Or.inr (Or.inl h)
      · exact Or.inr (Or.inr h)
  · unfold vibEffects at hx
    split at hx
    · simp at hx; exact Or.inl hx
    · cases hx

/-- An error the classifier does not call a network error is skipped with no
state change and no effect. -/
theorem handleError_skip (s : LoopState) (e : JsError) (h : isNetworkError e = false) :
    handleError s e = (s, []) := by
  unfold handleError
  split
  · next htrue => rw [h] at htrue; cases htrue
  · rfl

/-- handleError looks at the error only through the classifier. -/
theorem handleError_congr (s : LoopState) (e1 e2 : JsError)
    (h : isNetworkError e1 = isNetworkError e2) :
    handleError s e1 = handleError s e2 := by
  unfold handleError
  rw [h]

/-- A network-classified error increments the retry counter, publishes the
error status, and below the retry cap backs off for exactly
RECONNECT_DELAY. -/
theorem handleError_counted (s : LoopState) (e : JsError) (h : isNetworkError e = true) :
    (handleError s e).1.retryCount = s.retryCount + 1 ∧
    (handleError s e).1.connectionStatus = ConnStatus.error ∧
    (s.retryCount + 1 < CONFIG.MAX_RETRY_ATTEMPTS →
      (handleError s e).2 = [Effect.waitMs CONFIG.RECONNECT_DELAY]) := by
  unfold handleError
  rw [h]
  simp only [if_true]
  refine ⟨?_, ?_, ?_⟩
  · split
    · rfl
    · split <;> rfl
  · split
    · rfl
    · split <;> rfl
  · intro hlt
    split
    · next hter =>
        exact absurd (show CONFIG.MAX_RETRY_ATTEMPTS ≤ s.retryCount + 1 from hter) (by omega)
    · rfl

/-- Every effect issued by handleError comes from the backoff wait, the
stopDetection call or the terminal dialog. -/
theorem handleError_mem (s : LoopState) (e : JsError) (x : Effect)
    (hx : x ∈ (handleError s e).2) :
    x = Effect.waitMs CONFIG.RECONNECT_DELAY ∨ x = Effect.speechStop ∨
      x = Effect.clearTimer ∨
      x = Effect.alertDialog "Connection Error" "Unable to reach the AI Server." := by
  simp only [handleError, stopDetection] at hx
  split at hx
  · split at hx
    · rcases List.mem_append.mp hx with h | h
      · rcases List.mem_cons.mp h with h | h
        · exact Or.inr (Or.inl h)
        · split at h
          · simp at h
            exact Or.inr (Or.inr (Or.inl h))
          · cases h
      · simp at h
        exact Or.inr (Or.inr (Or.inr h))
    · simp at hx
      exact Or.inl hx
  · cases hx

/-- The effect list of onFetchComplete is empty or comes whole from
handleError or handleAlerts. -/
theorem onFetchComplete_effects_shape (s : LoopState) (env : Env) :
    (onFetchComplete s env).2 = [] ∨
    (∃ s' e, (onFetchComplete s env).2 = (handleError s' e).2) ∨
    (∃ s' d n, (onFetchComplete s env).2 = (handleAlerts s' d n).2) := by
  simp only [onFetchComplete]
  split
  · split
    · exact Or.inl rfl
    · exact Or.inr (Or.inl ⟨_, _, rfl⟩)
  · split
    · split
      · exact Or.inl rfl
      · exact Or.inr (Or.inl ⟨_, _, rfl⟩)
    · split
      · split
        · exact Or.inl rfl
        · exact Or.inr (Or.inl ⟨_, _, rfl⟩)
      · split
        · exact Or.inl rfl
        · exact Or.inr (Or.inr ⟨_, _, _, rfl⟩)

/-- Every effect issued by the post-fetch continuation. -/
theorem onFetchComplete_mem (s : LoopState) (env : Env) (x : Effect)
    (hx : x ∈ (onFetchComplete s env).2) :
    x = Effect.vibrate ∨ x = Effect.speechStop ∨ (∃ t, x = Effect.speak t) ∨
      x = Effect.waitMs CONFIG.RECONNECT_DELAY ∨ x = Effect.clearTimer ∨
      x = Effect.alertDialog "Connection Error" "Unable to reach the AI Server." := by
  rcases onFetchComplete_effects_shape s env with h | ⟨s', e', h⟩ | ⟨s', d, n, h⟩ <;>
    rw [h] at hx
  · cases hx
  · have := handleError_mem s' e' x hx
    tauto
  · rcases handleAlerts_mem s' d n x hx with h1 | h1 | h1
    · tauto
    · tauto
    · exact Or.inr (Or.inr (Or.inl ⟨d.alert, h1⟩))

/-- The effect list of a whole iteration: nothing, a bare capture, a capture
followed by handleError effects, or capture and request followed by the
post-fetch continuation effects. -/
theorem captureAndSendFrame_effects_shape (s : LoopState) (env : Env) :
    (captureAndSendFrame s env).2 = [] ∨
    (captureAndSendFrame s env).2 = [Effect.capture] ∨
    (∃ s' e, (captureAndSendFrame s env).2 = Effect.capture :: (handleError s' e).2) ∨
    (∃ s' env', (captureAndSendFrame s env).2 =
        Effect.capture :: Effect.fetchRequest :: (onFetchComplete s' env').2) := by
  simp only [captureAndSendFrame, resumeAfterFetch]
  split
  · exact Or.inl rfl
  · split
    · split
      · exact Or.inr (Or.inl rfl)
      · exact Or.inr (Or.inr (Or.inl ⟨_, _, rfl⟩))
    · split
      · exact Or.inr (Or.inl rfl)
      · exact Or.inr (Or.inr (Or.inr ⟨_, _, rfl⟩))

/-- Every effect issued by one whole iteration. -/
theorem captureAndSendFrame_mem (s : LoopState) (env : Env) (x : Effect)
    (hx : x ∈ (captureAndSendFrame s env).2) :
    x = Effect.capture ∨ x = Effect.fetchRequest ∨ x = Effect.vibrate ∨
      x = Effect.speechStop ∨ (∃ t, x = Effect.speak t) ∨
      x = Effect.waitMs CONFIG.RECONNECT_DELAY ∨ x = Effect.clearTimer ∨
      x = Effect.alertDialog "Connection Error" "Unable to reach the AI Server." := by
  rcases captureAndSendFrame_effects_shape s env with h | h | ⟨s', e', h⟩ | ⟨s', env', h⟩ <;>
    rw [h] at hx
  · cases hx
  · simp at hx
    tauto
  · rcases List.mem_cons.mp hx with h1 | h1
    · tauto
    · have := handleError_mem s' e' x h1
      tauto
  · rcases List.mem_cons.mp hx with h1 | h1
    · tauto
    · rcases List.mem_cons.mp h1 with h2 | h2
      · tauto
      · have := onFetchComplete_mem s' env' x h2
        tauto

/-- An iteration never schedules the loop itself. -/
theorem captureAndSendFrame_no_schedule (s : LoopState) (env : Env) (d : Nat) :
    Effect.scheduleNext d ∉ (captureAndSendFrame s env).2 := by
  intro hx
  rcases captureAndSendFrame_mem s env _ hx with h | h | h | h | ⟨t, h⟩ | h | h | h <;>
    exact Effect.noConfusion h

/-- handleError performs no network request. -/
theorem countP_fetch_handleError (s : LoopState) (e : JsError) :
    List.countP isFetchRequest (handleError s e).2 = 0 :=
  List.countP_eq_zero.mpr fun x hx => by
    rcases handleError_mem s e x hx with h | h | h | h <;> subst h <;> simp [isFetchRequest]

/-- The post-fetch continuation performs no further network request. -/
theorem countP_fetch_onFetchComplete (s : LoopState) (env : Env) :
    List.countP isFetchRequest (onFetchComplete s env).2 = 0 :=
  List.countP_eq_zero.mpr fun x hx => by
    rcases onFetchComplete_mem s env x hx with h | h | ⟨t, h⟩ | h | h | h <;>
      subst h <;> simp [isFetchRequest]

/-- The boolean per-element comparison decides keysEq. -/
theorem sameDetection_iff (a b : Detection) : sameDetection a b = true ↔ keysEq a b := by
  unfold sameDetection keysEq
  simp only [Bool.and_eq_true, beq_iff_eq]
  tauto

/-- The boolean list comparison decides pointwise keysEq. -/
theorem sameDetections_iff_forall₂ (l₁ l₂ : List Detection) :
    sameDetections l₁ l₂ = true ↔ List.Forall₂ keysEq l₁ l₂ := by
  rw [List.forall₂_iff_zip]
  unfold sameDetections
  simp only [Bool.and_eq_true, List.all_eq_true, beq_iff_eq]
  constructor
  · rintro ⟨h1, h2⟩
    refine ⟨h1, ?_⟩
    intro a b hab
    exact (sameDetection_iff a b).mp (h2 (a, b) hab)
  · rintro ⟨h1, h2⟩
    refine ⟨h1, ?_⟩
    intro p hp
    obtain ⟨a, b⟩ := p
    exact (sameDetection_iff a b).mpr (h2 hp)

/-- keysEq is pointwise reflexive on any list. -/
theorem forall₂_keysEq_refl (l : List Detection) : List.Forall₂ keysEq l l := by
  induction l with
  | nil => exact List.Forall₂.nil
  | cons a t ih => exact List.Forall₂.cons ⟨rfl, rfl, rfl, rfl, rfl⟩ ih

/-- A list always compares equal to itself. -/
theorem sameDetections_refl (l : List Detection) : sameDetections l l = true :=
  (sameDetections_iff_forall₂ l l).mpr (forall₂_keysEq_refl l)

/-- The reconciler keeps the previous list exactly when the two lists agree
pointwise on class and bbox coordinates. -/
theorem updateDetections_eq_prev_iff (prev next : List Detection) :
    updateDetections prev next = prev ↔ List.Forall₂ keysEq prev next := by
  unfold updateDetections
  by_cases h : sameDetections prev next = true
  · rw [if_pos h]
    simp [(sameDetections_iff_forall₂ prev next).mp h]
  · rw [if_neg h]
    constructor
    · intro heq
      rw [heq] at h
      exact absurd (sameDetections_refl prev) h
    · intro hf
      exact absurd ((sameDetections_iff_forall₂ _ _).mpr hf) h

/-- Claim C1, counterexample: the claim states that an HttpError (any
non-2xx response) is a retryable failure counted toward
consecutiveFailures with backoff; on the code, the error thrown for HTTP
status 500 is not classified as a network error, so the catch block skips
it entirely: the state is unchanged (no retry increment, no status change)
and no backoff wait is issued. -/
theorem claim_c1_counterexample :
    handleError baseState (errOf (ErrKind.http 500)) = (baseState, []) ∧
    (handleError baseState (errOf (ErrKind.http 500))).1.retryCount ≠
      baseState.retryCount + 1 := by
  constructor
  · decide
  · decide

/-- Claim C1, amended: Timeout and NetworkError are counted retryable
failures with identical backoff (they increment consecutiveFailures, set
the error status, and below the cap wait RECONNECT_DELAY), while
HttpError(status) for every status, DecodeError and CaptureError are all
skipped without incrementing consecutiveFailures and without changing the
connection status. -/
theorem claim_c1_amended :
    (isNetworkError (errOf ErrKind.timeout) = true ∧
      isNetworkError (errOf ErrKind.network) = true) ∧
    (∀ status : Nat, isNetworkError (errOf (ErrKind.http status)) = false) ∧
    (isNetworkError (errOf ErrKind.decode) = false ∧
      isNetworkError (errOf ErrKind.captureFail) = false) ∧
    (∀ (s : LoopState) (e : JsError), isNetworkError e = false → handleError s e = (s, [])) ∧
    (∀ (s : LoopState) (e : JsError), isNetworkError e = true →
      (handleError s e).1.retryCount = s.retryCount + 1 ∧
      (handleError s e).1.connectionStatus = ConnStatus.error ∧
      (s.retryCount + 1 < CONFIG.MAX_RETRY_ATTEMPTS →
        (handleError s e).2 = [Effect.waitMs CONFIG.RECONNECT_DELAY])) ∧
    (∀ s : LoopState, handleError s (errOf ErrKind.timeout) =
      handleError s (errOf ErrKind.network)) := by
  refine ⟨⟨by decide, by decide⟩, isNetworkError_http, ⟨by decide, by decide⟩, ?_, ?_, ?_⟩
  · exact handleError_skip
  · exact handleError_counted
  · intro s
    exact handleError_congr s _ _ (by decide)

/-- Claim C1, witness: a decode error is skipped with no state change. -/
theorem claim_c1_witness :
    handleError baseState (errOf ErrKind.decode) = (baseState, []) :=
  claim_c1_amended.2.2.2.1 baseState (errOf ErrKind.decode) (by decide)

/-- Claim C2: when the request of the previous iteration is still in flight
(the processing flag is set), the next iteration returns immediately with
the state unchanged and no effect at all — no capture, no network call;
moreover any single iteration issues at most one network request. -/
theorem claim_c2_backpressure :
    (∀ (s : LoopState) (env : Env), s.processing = true →
      captureAndSendFrame s env = (s, [])) ∧
    (∀ (s : LoopState) (env : Env),
      List.countP isFetchRequest (captureAndSendFrame s env).2 ≤ 1) := by
  constructor
  · intro s env h
    unfold captureAndSendFrame
    rw [if_pos (by rw [h]; simp)]
  · intro s env
    rcases captureAndSendFrame_effects_shape s env with h | h | ⟨s', e', h⟩ | ⟨s', env', h⟩ <;>
      rw [h]
    · simp
    · simp [List.countP_cons, isFetchRequest]
    · simp [List.countP_cons, countP_fetch_handleError, isFetchRequest]
    · simp [List.countP_cons, countP_fetch_onFetchComplete, isFetchRequest]

/-- Claim C2, witness: a concrete busy iteration is a complete no-op. -/
theorem claim_c2_witness : captureAndSendFrame busyState env0 = (busyState, []) :=
  claim_c2_backpressure.1 busyState env0 rfl

/-- Claim C3, counterexample: the claim gives the example that objects a, b,
c derive the text with a one-character ellipsis and no space before
detected; the code produces a three-dot ASCII marker followed by a space
before detected. -/
theorem claim_c3_counterexample :
    deriveAlert (respObjects ["a", "b", "c"]) = "a, b... detected" ∧
    deriveAlert (respObjects ["a", "b", "c"]) ≠ "a, b…detected" := by
  constructor
  · decide
  · decide

/-- Claim C3, amended: a non-empty explicit alert is used verbatim; with no
alert and no objects the text is Path Clear; with objects, the distinct
names in order of first appearance are joined (first two) and suffixed
with a space and the word detected, the truncation marker being three
ASCII dots before that space, as in: chair, chair, table gives
chair, table detected and a, b, c gives a, b... detected. -/
theorem claim_c3_amended :
    (∀ data : ServerResponse, data.alert ≠ "" → deriveAlert data = data.alert) ∧
    (∀ data : ServerResponse, data.alert = "" → data.objects = [] →
      deriveAlert data = "Path Clear") ∧
    deriveAlert (respObjects ["chair", "chair", "table"]) = "chair, table detected" ∧
    deriveAlert (respObjects ["a", "b", "c"]) = "a, b... detected" ∧
    deriveAlert emptyResp = "Path Clear" := by
  refine ⟨?_, ?_, by decide, by decide, by decide⟩
  · intro data h
    unfold deriveAlert
    rw [if_pos h]
  · intro data h1 h2
    unfold deriveAlert
    rw [if_neg (by simp [h1]), if_neg (by simp [h2])]

/-- Claim C3, witness: an explicit alert is used verbatim. -/
theorem claim_c3_witness :
    deriveAlert warnResp = "Warning: obstacle ahead" :=
  claim_c3_amended.1 warnResp (by decide)

/-- Claim C4: the reconciler returns the previous list (reports no change)
exactly when the lists have equal length and pairwise-equal class and bbox
coordinates; otherwise it returns the next list; and the per-element
comparison is insensitive to any change of confidence alone. -/
theorem claim_c4_reconcile (prev next : List Detection) :
    (updateDetections prev next = prev ↔
      (prev.length = next.length ∧
        ∀ (i : Nat) (h₁ : i < prev.length) (h₂ : i < next.length),
          keysEq (prev.get ⟨i, h₁⟩) (next.get ⟨i, h₂⟩))) ∧
    (¬ List.Forall₂ keysEq prev next → updateDetections prev next = next) ∧
    (∀ (a b : Detection) (c d : Rat),
      sameDetection { a with confidence := c } { b with confidence := d } =
        sameDetection a b) := by
  refine ⟨?_, ?_, ?_⟩
  · rw [updateDetections_eq_prev_iff, List.forall₂_iff_get]
  · intro h
    unfold updateDetections
    rw [if_neg (fun hc => h ((sameDetections_iff_forall₂ _ _).mp hc))]
  · intro a b c d
    rfl

/-- Claim C4, witness: a confidence-only jitter keeps the previous list. -/
theorem claim_c4_witness : updateDetections [det0] [det0jitter] = [det0] := by
  refine (claim_c4_reconcile [det0] [det0jitter]).1.mpr ⟨rfl, ?_⟩
  intro i h₁ h₂
  have h0 : i = 0 := Nat.lt_one_iff.mp h₁
  subst h0
  exact ⟨rfl, rfl, rfl, rfl, rfl⟩

/-- Claim C5, counterexample: the claim states that any two explicit-alert
responses handled within speechCooldownMs of each other produce exactly
one utterance; after an utterance at the first instant, two further
explicit-alert responses arrive 1000 ms apart (within the 3000 ms
cooldown of each other) and produce zero utterances between them. -/
theorem claim_c5_counterexample :
    warnResp.alert ≠ "" ∧
    (1700000002000 : Int) - 1700000001000 < (CONFIG.SPEECH_COOLDOWN : Int) ∧
    countSpeaks c5r2.2 = 0 ∧ countSpeaks c5r3.2 = 0 := by
  refine ⟨by decide, by decide, by decide, by decide⟩

/-- Claim C5, amended: speech fires exactly when the response carries an
explicit alert and the cooldown has elapsed since the last utterance;
firing records the utterance time and issues a speech stop immediately
before the new utterance; and any two explicit-alert responses handled
within speechCooldownMs of each other produce at most one utterance. -/
theorem claim_c5_amended :
    (∀ (s : LoopState) (data : ServerResponse) (now : Int),
      (∃ t, Effect.speak t ∈ (handleAlerts s data now).2) ↔
        (data.alert ≠ "" ∧ (CONFIG.SPEECH_COOLDOWN : Int) ≤ now - s.lastSpeechTime)) ∧
    (∀ (s : LoopState) (data : ServerResponse) (now : Int),
      data.alert ≠ "" → (CONFIG.SPEECH_COOLDOWN : Int) ≤ now - s.lastSpeechTime →
        (handleAlerts s data now).1.lastSpeechTime = now ∧
        (handleAlerts s data now).2 =
          vibEffects (deriveAlert data) ++ [Effect.speechStop, Effect.speak data.alert]) ∧
    (∀ (s : LoopState) (d1 d2 : ServerResponse) (t1 t2 : Int),
      d1.alert ≠ "" → d2.alert ≠ "" → t1 ≤ t2 →
      t2 - t1 < (CONFIG.SPEECH_COOLDOWN : Int) →
        countSpeaks (handleAlerts s d1 t1).2 +
          countSpeaks (handleAlerts (handleAlerts s d1 t1).1 d2 t2).2 ≤ 1) := by
  refine ⟨?_, ?_, ?_⟩
  · intro s data now
    rw [handleAlerts_eq]
    split
    · next hc =>
        refine ⟨fun _ => hc, fun _ => ⟨data.alert, by simp⟩⟩
    · next hc =>
        constructor
        · rintro ⟨t, ht⟩
          exfalso
          unfold vibEffects at ht
          split at ht
          · simp at ht
          · cases ht
        · intro h
          exact absurd h hc
  · intro s data now h1 h2
    rw [handleAlerts_eq, if_pos ⟨h1, h2⟩]
    exact ⟨rfl, rfl⟩
  · intro s d1 d2 t1 t2 h1 h2 hle hwin
    rw [countSpeaks_handleAlerts, countSpeaks_handleAlerts, lastSpeechTime_handleAlerts]
    by_cases hc1 : (CONFIG.SPEECH_COOLDOWN : Int) ≤ t1 - s.lastSpeechTime
    · have hinner :
          (if d1.alert ≠ "" ∧ (CONFIG.SPEECH_COOLDOWN : Int) ≤ t1 - s.lastSpeechTime
            then t1 else s.lastSpeechTime) = t1 := if_pos ⟨h1, hc1⟩
      rw [hinner, if_pos ⟨h1, hc1⟩,
        if_neg (fun hcon => absurd hcon.2 (not_le.mpr (by omega)))]
    · have hinner :
          (if d1.alert ≠ "" ∧ (CONFIG.SPEECH_COOLDOWN : Int) ≤ t1 - s.lastSpeechTime
            then t1 else s.lastSpeechTime) = s.lastSpeechTime := if_neg (fun hcon => hc1 hcon.2)
      rw [hinner, if_neg (fun hcon => hc1 hcon.2)]
      split <;> omega

/-- Claim C5, witness: a first explicit alert long after the initial state
fires and records its time. -/
theorem claim_c5_witness :
    (handleAlerts baseState warnResp 1700000000000).1.lastSpeechTime = 1700000000000 :=
  (claim_c5_amended.2.1 baseState warnResp 1700000000000 (by decide) (by decide)).1

/-- Claim C6: at the fifth consecutive counted failure the loop does stop
and exactly one terminal dialog is issued, and below the cap the backoff
wait of RECONNECT_DELAY is issued; but the published alert text does not
end as the terminal Connection Lost text: the stopDetection call made by
the terminal branch immediately overwrites it with Paused. -/
theorem claim_c6_terminal :
    c6res.1.running = false ∧ c6res.1.isRunning = false ∧
    c6res.1.alertText = "Paused" ∧ c6res.1.alertText ≠ "Connection Lost" ∧
    c6res.1.lastAlertText = "Paused" ∧
    List.countP isAlertDialog c6res.2 = 1 ∧
    (handleError baseState (errOf ErrKind.network)).2 =
      [Effect.waitMs CONFIG.RECONNECT_DELAY] := by
  decide

/-- onFetchComplete on a successful 2xx response with a parsed body, while
still mounted, reduces to the success updates followed by handleAlerts. -/
theorem onFetchComplete_success (s : LoopState) (env : Env) (resp : ServerResponse)
    (status : Nat) (hnet : env.netResult = NetResult.response status (some resp))
    (hok : responseOk status = true) (hm : env.mounted2 = true) :
    onFetchComplete s env =
      handleAlerts
        { s with
          mounted := true
          detections := updateDetections s.detections resp.detections
          serverW := if resp.frameWidth = 0 then 1 else resp.frameWidth
          serverH := if resp.frameHeight = 0 then 1 else resp.frameHeight
          connectionStatus := ConnStatus.connected
          retryCount := 0 } resp env.now := by
  unfold onFetchComplete
  rw [hnet]
  simp only [hm, hok]
  rfl

/-- Claim C7, counterexample: the claim states that after stop an in-flight
result is discarded: no detections update, no connection-status update, no
alert or speech side effect. On the code, with the controller stopped but
the component still mounted, the late success result is fully applied:
detections and connection status update and vibration and speech fire. -/
theorem claim_c7_counterexample :
    stoppedInFlight.running = false ∧ stoppedInFlight.mounted = true ∧
    c7res.1.detections = [det0] ∧ stoppedInFlight.detections ≠ [det0] ∧
    c7res.1.connectionStatus = ConnStatus.connected ∧
    stoppedInFlight.connectionStatus ≠ ConnStatus.connected ∧
    Effect.vibrate ∈ c7res.2 ∧ Effect.speak "Warning: obstacle ahead" ∈ c7res.2 := by
  decide

/-- Claim C7, amended: after stop the loop itself performs no further
captures or network calls (a non-running loop pass is a complete no-op),
and an in-flight result is discarded when the component is unmounted; but
when the controller is merely stopped while still mounted, the late result
is still applied: detections and connection status update and the alert
effects fire, the running flag alone staying unchanged. -/
theorem claim_c7_amended :
    (∀ (s : LoopState) (env : Env), s.running = false →
      startRealtimeLoopStep s env = (s, [])) ∧
    (∀ (s : LoopState) (env : Env), env.mounted2 = false →
      resumeAfterFetch s env = ({ s with mounted := false, processing := false }, [])) ∧
    (∀ (s : LoopState) (env : Env) (resp : ServerResponse) (status : Nat),
      env.netResult = NetResult.response status (some resp) → responseOk status = true →
      env.mounted2 = true →
        (resumeAfterFetch s env).1.detections = updateDetections s.detections resp.detections ∧
        (resumeAfterFetch s env).1.connectionStatus = ConnStatus.connected ∧
        (resumeAfterFetch s env).1.running = s.running) := by
  refine ⟨?_, ?_, ?_⟩
  · intro s env h
    unfold startRealtimeLoopStep
    rw [if_pos (by rw [h]; simp)]
  · intro s env h
    unfold resumeAfterFetch onFetchComplete
    rw [h]
    split
    · rfl
    · split
      · rfl
      · split
        · rfl
        · rfl
  · intro s env resp status hnet hok hm
    unfold resumeAfterFetch
    rw [onFetchComplete_success s env resp status hnet hok hm]
    exact ⟨(handleAlerts_preserves _ _ _).1, (handleAlerts_preserves _ _ _).2.1,
      (handleAlerts_preserves _ _ _).2.2.1⟩

/-- Claim C7, witness: the late warning response applied to the stopped but
mounted state updates the detections from the discarded-by-claim result. -/
theorem claim_c7_witness :
    (resumeAfterFetch stoppedInFlight lateEnv).1.detections =
      updateDetections stoppedInFlight.detections lateResp.detections :=
  (claim_c7_amended.2.2 stoppedInFlight lateEnv lateResp 200 rfl rfl rfl).1

/-- Claim C8, counterexample: for an iteration that took 500 ms the claim
predicts a next-iteration delay of max(0, 100 − 500) = 0 ms; the code
schedules the fixed frameDelay of 100 ms and never the adaptive value. -/
theorem claim_c8_counterexample :
    c8env.elapsedMs = 500 ∧
    Effect.scheduleNext frameDelay ∈ c8res.2 ∧
    Effect.scheduleNext (Int.toNat (specAdaptiveDelay 500)) ∉ c8res.2 ∧
    (frameDelay : Int) ≠ specAdaptiveDelay 500 := by
  refine ⟨by decide, by decide, by decide, by decide⟩

/-- Claim C8, amended: the loop schedules the next iteration after the
fixed delay frameDelay = 1000 / targetFps, regardless of the time already
spent processing the iteration: the whole pass is insensitive to the
elapsed time, and every scheduling effect it emits carries frameDelay. -/
theorem claim_c8_amended :
    (∀ (s : LoopState) (env : Env) (e2 : Nat),
      startRealtimeLoopStep s env = startRealtimeLoopStep s { env with elapsedMs := e2 }) ∧
    (∀ (s : LoopState) (env : Env) (d : Nat),
      Effect.scheduleNext d ∈ (startRealtimeLoopStep s env).2 → d = frameDelay) ∧
    frameDelay = 1000 / CONFIG.FRAME_RATE := by
  refine ⟨?_, ?_, rfl⟩
  · intro s env e2
    obtain ⟨cr, cok, ce, m1, nr, de, m2, tnow, el⟩ := env
    rfl
  · intro s env d hd
    simp only [startRealtimeLoopStep] at hd
    split at hd
    · cases hd
    · split at hd
      · rcases List.mem_append.mp hd with h | h
        · exact absurd h (captureAndSendFrame_no_schedule s env d)
        · simpa using h
      · exact absurd hd (captureAndSendFrame_no_schedule s env d)

/-- Claim C8, witness: the uneventful pass schedules exactly frameDelay. -/
theorem claim_c8_witness :
    Effect.scheduleNext frameDelay ∈ (startRealtimeLoopStep baseState env0).2 ∧
    frameDelay = frameDelay :=
  ⟨by decide, claim_c8_amended.2.1 baseState env0 frameDelay (by decide)⟩

/-- Claim C9, counterexample: the claim states that stop on an already
stopped controller produces no additional speech-stop command; the code
issues a speech stop on every stopDetection call, with no stopped guard. -/
theorem claim_c9_counterexample :
    stoppedState.running = false ∧ stoppedState.frameLoopTimeout = false ∧
    stoppedState.alertText = "Paused" ∧
    Effect.speechStop ∈ (stopDetection stoppedState).2 := by
  decide

/-- Claim C9, amended: start on an already running controller is a complete
no-op; stop on an already stopped controller leaves the state unchanged
(so no alert-text value actually changes) but re-issues the speech-stop
side effect on every call. -/
theorem claim_c9_amended :
    (∀ s : LoopState, s.running = true → startDetection s = (s, [])) ∧
    (∀ s : LoopState, s.running = false → s.isRunning = false → s.frameLoopTimeout = false →
      s.alertText = "Paused" → s.lastAlertText = "Paused" →
        (stopDetection s).1 = s ∧ (stopDetection s).2 = [Effect.speechStop]) := by
  constructor
  · intro s h
    unfold startDetection
    rw [h]
    simp
  · intro s h1 h2 h3 h4 h5
    obtain ⟨f1, f2, f3, f4, f5, f6, f7, f8, f9, f10, f11, f12, f13⟩ := s
    dsimp only at h1 h2 h3 h4 h5
    subst h1; subst h2; subst h3; subst h4; subst h5
    exact ⟨rfl, rfl⟩

/-- Claim C9, witness: start while running is a no-op. -/
theorem claim_c9_witness : startDetection baseState = (baseState, []) :=
  claim_c9_amended.1 baseState rfl

/-- Claim C10: whenever the derived alert text contains the substring
Warning, the vibration actuator fires, for every state — in particular
also when the derived text equals the previous iteration's text and when
the speech cooldown suppresses speech. -/
theorem claim_c10_vibration (s : LoopState) (data : ServerResponse) (now : Int)
    (h : strIncludes (deriveAlert data) "Warning" = true) :
    Effect.vibrate ∈ (handleAlerts s data now).2 := by
  rw [handleAlerts_eq]
  have hv : vibEffects (deriveAlert data) = [Effect.vibrate] := by
    unfold vibEffects
    rw [if_pos h]
  split
  · rw [hv]
    simp
  · rw [hv]
    simp

/-- Claim C10, witness: a repeated identical warning text, inside the
speech cooldown, still vibrates. -/
theorem claim_c10_witness :
    Effect.vibrate ∈ (handleAlerts warnSeenState warnResp 1700000001000).2 :=
  claim_c10_vibration warnSeenState warnResp 1700000001000 (by decide)
